import Mathlib

/-!
Verification of the fighthealthinsurance backend against its specification.

The definitions below are a shallow embedding of the Python/Django source:
* `fhi_users/models.py` — the membership data model and its pre-save signal;
* `fhi_users/auth/rest_auth_views.py` — the accept/reject membership handlers
  and the verification / password-reset token handlers;
* `fighthealthinsurance/rest_views.py` — the appeal/denial REST handlers
  (send_fax, retrieve, stats, absolute_stats, search, perform_create).

Django ORM queries are modelled over explicit lists of records.  A
`Model.objects.get(...)` on a non-unique filter is modelled by `getUnique`
(zero matches raise `DoesNotExist`, several raise `MultipleObjectsReturned`);
lookups keyed by a unique/primary-key column are modelled with `List.find?`.
HTTP handlers return a status code together with the updated store; an
uncaught Python exception is modelled with `Except.error`.
-/

/-- Membership relation between a professional and a domain
(`ProfessionalDomainRelation` in `fhi_users/models.py`).  `relId` stands for
the implicit auto primary key. -/
structure ProfessionalDomainRelation where
  relId : Nat
  professionalId : Nat
  domainId : String
  active : Bool
  admin : Bool
  read_only : Bool
  pending : Bool
  suspended : Bool
  rejected : Bool
deriving DecidableEq, Repr

/-- The pre-save signal on `ProfessionalDomainRelation`: on every save the
`active` field is recomputed from `pending`, `suspended` and `rejected`. -/
def professional_domain_relation_presave
    (r : ProfessionalDomainRelation) : ProfessionalDomainRelation :=
  { r with active := !r.pending && !r.suspended && !r.rejected }

/-- A professional user record (`ProfessionalUser` in `fhi_users/models.py`);
`active` is the user-level flag, distinct from the per-domain relation. -/
structure ProfessionalUser where
  id : Nat
  active : Bool
deriving DecidableEq, Repr

/-- A practice domain (`UserDomain` in `fhi_users/models.py`), reduced to the
fields the accept handler reads. -/
structure UserDomain where
  id : String
  stripe_subscription_id : Option String
deriving DecidableEq, Repr

/-- The seat quantity of an external Stripe subscription, as read and written
through the payment API in the accept handler. -/
structure StripeSubscription where
  subId : String
  quantity : Nat
deriving DecidableEq, Repr

/-- The store consulted by the accept/reject membership handlers. -/
structure AuthDb where
  domains : List UserDomain
  professionals : List ProfessionalUser
  relations : List ProfessionalDomainRelation
  subscriptions : List StripeSubscription
deriving DecidableEq, Repr

/-- Failure modes of `Model.objects.get` on a queryset. -/
inductive GetError
  | doesNotExist
  | multipleObjectsReturned
deriving DecidableEq, Repr

/-- `Model.objects.get(**filters)`: exactly one matching row or an error. -/
def getUnique {α : Type} (p : α → Bool) (xs : List α) : Except GetError α :=
  match xs.filter p with
  | [] => .error .doesNotExist
  | [x] => .ok x
  | _ => .error .multipleObjectsReturned

/-- Observable writes performed by the accept/reject handlers, in program
order. -/
inductive AuthEffect
  | savedProfessional (id : Nat) (active : Bool)
  | savedRelation (relId : Nat) (pending : Bool)
  | stripeSeatSet (subId : String) (quantity : Nat)
deriving DecidableEq, Repr

/-- Result of a membership handler: HTTP status, updated store, write log. -/
structure HandlerOutcome where
  status : Nat
  db : AuthDb
  effects : List AuthEffect
deriving DecidableEq, Repr

/-- The queryset filter used by both accept and reject:
`ProfessionalDomainRelation.objects.get(professional_id=..., pending=True,
domain_id=...)`. -/
def pendingRelFilter (pid : Nat) (did : String)
    (r : ProfessionalDomainRelation) : Bool :=
  r.professionalId == pid && r.pending && r.domainId == did

/-- `ProfessionalUserViewSet.accept` from `fhi_users/auth/rest_auth_views.py`.
The admin check (`user_is_admin_in_domain`, defined outside this repository
portion) is passed in as `adminCheck`; `Except.error` stands for an unexpected
exception raised while evaluating it.  The handler wraps the check in a
try/except that answers 401 on any exception; the relation lookup is wrapped
in a try/except catching only `ProfessionalDomainRelation.DoesNotExist`
(answering 404), so every other exception propagates. -/
def accept (adminCheck : Except String Bool) (professional_user_id : Nat)
    (domain_id : String) (db : AuthDb) : Except String HandlerOutcome :=
  match adminCheck with
  | .error _ => .ok ⟨401, db, []⟩
  | .ok false => .ok ⟨403, db, []⟩
  | .ok true =>
    match getUnique (pendingRelFilter professional_user_id domain_id)
        db.relations with
    | .error .doesNotExist => .ok ⟨404, db, []⟩
    | .error .multipleObjectsReturned =>
      .error "MultipleObjectsReturned"
    | .ok relation =>
      match db.professionals.find? (fun p => p.id == professional_user_id) with
      | none => .error "ProfessionalUser.DoesNotExist"
      | some professional_user =>
        let professional_user := { professional_user with active := true }
        let db := { db with
          professionals := db.professionals.map
            (fun (p : ProfessionalUser) =>
              if p.id == professional_user.id then professional_user else p) }
        let relation := professional_domain_relation_presave
          { relation with pending := false }
        let db := { db with
          relations := db.relations.map
            (fun (r : ProfessionalDomainRelation) =>
              if r.relId == relation.relId then relation else r) }
        let effects : List AuthEffect :=
          [.savedProfessional professional_user.id true,
           .savedRelation relation.relId relation.pending]
        match db.domains.find? (fun (d : UserDomain) => d.id == relation.domainId) with
        | none => .error "UserDomain.DoesNotExist"
        | some dom =>
          match dom.stripe_subscription_id with
          | some sid =>
            match db.subscriptions.find? (fun (s : StripeSubscription) => s.subId == sid) with
            | none => .error "stripe.Subscription.retrieve failed"
            | some subscription =>
              let subscription :=
                { subscription with quantity := subscription.quantity + 1 }
              let db := { db with
                subscriptions := db.subscriptions.map
                  (fun (s : StripeSubscription) =>
                    if s.subId == subscription.subId then subscription
                    else s) }
              .ok ⟨200, db,
                effects ++ [.stripeSeatSet subscription.subId
                  subscription.quantity]⟩
          | none => .ok ⟨200, db, effects⟩

/-- `ProfessionalUserViewSet.reject` from `fhi_users/auth/rest_auth_views.py`.
No try/except surrounds the admin check or the relation lookup, so an
exception in either propagates raw.  On success the handler sets
`pending=False`, `rejected=True`, `active=False` and saves (the pre-save
signal recomputes `active`). -/
def reject (adminCheck : Except String Bool) (professional_user_id : Nat)
    (domain_id : String) (db : AuthDb) : Except String HandlerOutcome :=
  match adminCheck with
  | .error e => .error e
  | .ok false => .ok ⟨403, db, []⟩
  | .ok true =>
    match getUnique (pendingRelFilter professional_user_id domain_id)
        db.relations with
    | .error .doesNotExist => .error "ProfessionalDomainRelation.DoesNotExist"
    | .error .multipleObjectsReturned =>
      .error "MultipleObjectsReturned"
    | .ok relation =>
      let relation := professional_domain_relation_presave
        { relation with pending := false, rejected := true, active := false }
      let db := { db with
        relations := db.relations.map
          (fun (r : ProfessionalDomainRelation) =>
            if r.relId == relation.relId then relation else r) }
      .ok ⟨204, db, [.savedRelation relation.relId relation.pending]⟩

/-- C1: after any save the `active` field of a membership relation equals
`not pending and not suspended and not rejected`; a directly assigned
`active` value is never honored; this holds in particular for the field
updates performed by the accept handler (`pending := false`) and the reject
handler (`pending := false, rejected := true, active := false`). -/
theorem active_is_derived_on_every_save
    (r : ProfessionalDomainRelation) (a : Bool) :
    ((professional_domain_relation_presave r).active =
      (!(professional_domain_relation_presave r).pending &&
       !(professional_domain_relation_presave r).suspended &&
       !(professional_domain_relation_presave r).rejected)) ∧
    (professional_domain_relation_presave { r with active := a } =
      professional_domain_relation_presave r) ∧
    ((professional_domain_relation_presave
        { r with pending := false, rejected := true, active := false }).active
      = false) ∧
    ((professional_domain_relation_presave { r with pending := false }).active
      = (!r.suspended && !r.rejected)) := by
  refine ⟨rfl, rfl, ?_, rfl⟩
  simp [professional_domain_relation_presave]

/-- The relation record stored by a successful accept: `pending := False`
followed by the pre-save recomputation of `active`. -/
def acceptedRelation (rel : ProfessionalDomainRelation) :
    ProfessionalDomainRelation :=
  professional_domain_relation_presave { rel with pending := false }

/-- The store produced by a successful accept before any Stripe seat update:
the professional record is activated and the pending relation is saved with
`pending := False`. -/
def acceptDbNoStripe (db : AuthDb) (prof : ProfessionalUser)
    (rel : ProfessionalDomainRelation) : AuthDb :=
  { db with
    professionals := db.professionals.map
      (fun (p : ProfessionalUser) =>
        if p.id == prof.id then { prof with active := true } else p),
    relations := db.relations.map
      (fun (r : ProfessionalDomainRelation) =>
        if r.relId == rel.relId then acceptedRelation rel else r) }

/-- The store produced by a successful accept when the domain carries a
Stripe subscription: additionally the seat quantity is written back
incremented by one. -/
def acceptDbStripe (db : AuthDb) (prof : ProfessionalUser)
    (rel : ProfessionalDomainRelation) (sub : StripeSubscription) : AuthDb :=
  { acceptDbNoStripe db prof rel with
    subscriptions := db.subscriptions.map
      (fun (s : StripeSubscription) =>
        if s.subId == sub.subId then { sub with quantity := sub.quantity + 1 }
        else s) }

lemma pendingRelFilter_acceptedRelation (pid : Nat) (did : String)
    (rel : ProfessionalDomainRelation) :
    pendingRelFilter pid did (acceptedRelation rel) = false := by
  simp [pendingRelFilter, acceptedRelation, professional_domain_relation_presave]

/-- After the unique pending relation has been saved with `pending := False`,
no relation in the store matches the pending filter any more. -/
lemma pendingRelFilter_after_update (db : AuthDb) (pid : Nat) (did : String)
    (rel : ProfessionalDomainRelation)
    (hrel : db.relations.filter (pendingRelFilter pid did) = [rel]) :
    (db.relations.map
      (fun (r : ProfessionalDomainRelation) =>
        if r.relId == rel.relId then acceptedRelation rel else r)).filter
      (pendingRelFilter pid did) = [] := by
  rw [List.filter_eq_nil_iff]
  intro y hy
  obtain ⟨x, hx, rfl⟩ := List.mem_map.mp hy
  by_cases hid : (x.relId == rel.relId) = true
  · simp [hid, pendingRelFilter_acceptedRelation]
  · simp only [hid, if_false, Bool.if_false_left]
    intro px
    have hxmem : x ∈ db.relations.filter (pendingRelFilter pid did) :=
      List.mem_filter.mpr ⟨hx, px⟩
    rw [hrel] at hxmem
    simp only [List.mem_singleton] at hxmem
    subst hxmem
    simp at hid

/-- Successful accept, domain without a Stripe subscription. -/
lemma accept_success_no_stripe (db : AuthDb) (pid : Nat) (did : String)
    (rel : ProfessionalDomainRelation) (prof : ProfessionalUser)
    (dom : UserDomain)
    (hrel : db.relations.filter (pendingRelFilter pid did) = [rel])
    (hprof : db.professionals.find? (fun p => p.id == pid) = some prof)
    (hdom : db.domains.find? (fun (d : UserDomain) => d.id == rel.domainId) =
      some dom)
    (hsid : dom.stripe_subscription_id = none) :
    accept (.ok true) pid did db =
      .ok ⟨200, acceptDbNoStripe db prof rel,
        [.savedProfessional prof.id true, .savedRelation rel.relId false]⟩ := by
  simp only [accept, getUnique, hrel, hprof]
  have hdomId : (professional_domain_relation_presave
      { rel with pending := false }).domainId = rel.domainId := rfl
  simp only [hdomId, hdom, hsid, acceptDbNoStripe, acceptedRelation]
  rfl

/-- Successful accept, domain with a Stripe subscription: the seat quantity
is written back incremented by exactly one. -/
lemma accept_success_stripe (db : AuthDb) (pid : Nat) (did : String)
    (rel : ProfessionalDomainRelation) (prof : ProfessionalUser)
    (dom : UserDomain) (sid : String) (sub : StripeSubscription)
    (hrel : db.relations.filter (pendingRelFilter pid did) = [rel])
    (hprof : db.professionals.find? (fun p => p.id == pid) = some prof)
    (hdom : db.domains.find? (fun (d : UserDomain) => d.id == rel.domainId) =
      some dom)
    (hsid : dom.stripe_subscription_id = some sid)
    (hsub : db.subscriptions.find? (fun (s : StripeSubscription) =>
      s.subId == sid) = some sub) :
    accept (.ok true) pid did db =
      .ok ⟨200, acceptDbStripe db prof rel sub,
        [.savedProfessional prof.id true, .savedRelation rel.relId false,
         .stripeSeatSet sub.subId (sub.quantity + 1)]⟩ := by
  simp only [accept, getUnique, hrel, hprof]
  have hdomId : (professional_domain_relation_presave
      { rel with pending := false }).domainId = rel.domainId := rfl
  simp only [hdomId, hdom, hsid, hsub, acceptDbStripe, acceptDbNoStripe,
    acceptedRelation]
  rfl

/-- Accept with no matching pending relation answers 404 and performs no
write at all. -/
lemma accept_no_pending (db : AuthDb) (pid : Nat) (did : String)
    (hrel : db.relations.filter (pendingRelFilter pid did) = []) :
    accept (.ok true) pid did db = .ok ⟨404, db, []⟩ := by
  simp only [accept, getUnique, hrel]

/-- C2: for an accept-membership request by an admin: with a pending relation
for (professional, domain) the relation is saved with `pending = false`
(derived `active` becomes true for an unsuspended, unrejected relation) and,
when the domain carries a subscription reference, the seat quantity is
written back incremented by exactly one (no write otherwise); with no pending
relation — in particular immediately after a successful accept — the handler
answers 404 and changes nothing. -/
theorem accept_pending_relation_seat_increment_and_404
    (db : AuthDb) (pid : Nat) (did : String) :
    (db.relations.filter (pendingRelFilter pid did) = [] →
      accept (.ok true) pid did db = .ok ⟨404, db, []⟩) ∧
    (∀ (rel : ProfessionalDomainRelation) (prof : ProfessionalUser)
        (dom : UserDomain),
      db.relations.filter (pendingRelFilter pid did) = [rel] →
      db.professionals.find? (fun p => p.id == pid) = some prof →
      db.domains.find? (fun (d : UserDomain) => d.id == rel.domainId) =
        some dom →
      ((acceptedRelation rel).pending = false) ∧
      (rel.suspended = false → rel.rejected = false →
        (acceptedRelation rel).active = true) ∧
      (dom.stripe_subscription_id = none →
        accept (.ok true) pid did db =
          .ok ⟨200, acceptDbNoStripe db prof rel,
            [.savedProfessional prof.id true,
             .savedRelation rel.relId false]⟩ ∧
        (acceptDbNoStripe db prof rel).subscriptions = db.subscriptions ∧
        accept (.ok true) pid did (acceptDbNoStripe db prof rel) =
          .ok ⟨404, acceptDbNoStripe db prof rel, []⟩) ∧
      (∀ (sid : String) (sub : StripeSubscription),
        dom.stripe_subscription_id = some sid →
        db.subscriptions.find? (fun (s : StripeSubscription) =>
          s.subId == sid) = some sub →
        accept (.ok true) pid did db =
          .ok ⟨200, acceptDbStripe db prof rel sub,
            [.savedProfessional prof.id true,
             .savedRelation rel.relId false,
             .stripeSeatSet sub.subId (sub.quantity + 1)]⟩ ∧
        ({ sub with quantity := sub.quantity + 1 } ∈
          (acceptDbStripe db prof rel sub).subscriptions) ∧
        accept (.ok true) pid did (acceptDbStripe db prof rel sub) =
          .ok ⟨404, acceptDbStripe db prof rel sub, []⟩)) := by
  constructor
  · exact accept_no_pending db pid did
  · intro rel prof dom hrel hprof hdom
    refine ⟨rfl, ?_, ?_, ?_⟩
    · intro hs hr
      simp [acceptedRelation, professional_domain_relation_presave, hs, hr]
    · intro hsid
      refine ⟨accept_success_no_stripe db pid did rel prof dom hrel hprof hdom
        hsid, rfl, ?_⟩
      exact accept_no_pending _ pid did
        (pendingRelFilter_after_update db pid did rel hrel)
    · intro sid sub hsid hsub
      refine ⟨accept_success_stripe db pid did rel prof dom sid sub hrel hprof
        hdom hsid hsub, ?_, ?_⟩
      · have hmem : sub ∈ db.subscriptions := List.mem_of_find?_eq_some hsub
        exact List.mem_map.mpr ⟨sub, hmem, by simp⟩
      · exact accept_no_pending _ pid did
          (pendingRelFilter_after_update db pid did rel hrel)

/-- A small concrete store: one domain `d1` with subscription `sub1` at seat
quantity 3, one professional `7`, one pending relation between them. -/
def dom0 : UserDomain := ⟨"d1", some "sub1"⟩

def prof0 : ProfessionalUser := ⟨7, false⟩

def rel0 : ProfessionalDomainRelation :=
  ⟨1, 7, "d1", false, false, false, true, false, false⟩

def sub0 : StripeSubscription := ⟨"sub1", 3⟩

def sampleDb : AuthDb := ⟨[dom0], [prof0], [rel0], [sub0]⟩

/-- Witness for C2 at the concrete store `sampleDb`. -/
theorem accept_pending_relation_seat_increment_and_404_witness :
    accept (.ok true) 7 "d1" sampleDb =
      .ok ⟨200, acceptDbStripe sampleDb prof0 rel0 sub0,
        [.savedProfessional prof0.id true,
         .savedRelation rel0.relId false,
         .stripeSeatSet sub0.subId (sub0.quantity + 1)]⟩ ∧
    ({ sub0 with quantity := sub0.quantity + 1 } ∈
      (acceptDbStripe sampleDb prof0 rel0 sub0).subscriptions) ∧
    accept (.ok true) 7 "d1" (acceptDbStripe sampleDb prof0 rel0 sub0) =
      .ok ⟨404, acceptDbStripe sampleDb prof0 rel0 sub0, []⟩ :=
  ((accept_pending_relation_seat_increment_and_404 sampleDb 7 "d1").2
    rel0 prof0 dom0 (by decide) (by decide) (by decide)).2.2.2
    "sub1" sub0 rfl (by decide)

/-- C5 (amended): a valid but non-admin caller gets 403 with no write, for
both accept and reject; an internal error while evaluating the admin check
makes accept fail closed with a 401 Unauthenticated-class answer and no
write, while reject propagates the exception and performs no write. -/
theorem admin_check_forbidden_and_fail_closed
    (pid : Nat) (did : String) (db : AuthDb) (e : String) :
    (accept (.ok false) pid did db = .ok ⟨403, db, []⟩) ∧
    (reject (.ok false) pid did db = .ok ⟨403, db, []⟩) ∧
    (accept (.error e) pid did db = .ok ⟨401, db, []⟩) ∧
    (reject (.error e) pid did db = .error e) :=
  ⟨rfl, rfl, rfl, rfl⟩

/-- C5 counterexample: an internal error during the accept admin check is
answered with 401, not with the Forbidden-class 403 the claim states, and
reject does not catch the error at all. -/
theorem accept_internal_error_returns_401_not_403 :
    accept (.error "boom") 7 "d1" sampleDb = .ok ⟨401, sampleDb, []⟩ ∧
    (401 : Nat) ≠ 403 ∧
    reject (.error "boom") 7 "d1" sampleDb = .error "boom" :=
  ⟨rfl, by decide, rfl⟩

/-- C10: a successful accept sets the professional's user-level `active` flag
to true — on the professional record itself, hence across all domains — and
this save is logged before the relation save that clears `pending`. -/
theorem accept_activates_professional_globally_before_relation_save
    (db : AuthDb) (pid : Nat) (did : String)
    (rel : ProfessionalDomainRelation) (prof : ProfessionalUser)
    (dom : UserDomain)
    (hrel : db.relations.filter (pendingRelFilter pid did) = [rel])
    (hprof : db.professionals.find? (fun p => p.id == pid) = some prof)
    (hdom : db.domains.find? (fun (d : UserDomain) => d.id == rel.domainId) =
      some dom)
    (hsub : dom.stripe_subscription_id = none ∨
      ∃ sid sub, dom.stripe_subscription_id = some sid ∧
        db.subscriptions.find? (fun (s : StripeSubscription) =>
          s.subId == sid) = some sub) :
    ∃ out, accept (.ok true) pid did db = .ok out ∧ out.status = 200 ∧
      out.effects.take 2 =
        [.savedProfessional pid true, .savedRelation rel.relId false] ∧
      (∀ p ∈ out.db.professionals, p.id = pid → p.active = true) := by
  have hpid : prof.id = pid := by
    have := List.find?_some hprof
    exact eq_of_beq this
  have hall : ∀ p ∈ (acceptDbNoStripe db prof rel).professionals,
      p.id = pid → p.active = true := by
    intro q hq hqid
    obtain ⟨x, hx, rfl⟩ := List.mem_map.mp hq
    by_cases h : (x.id == prof.id) = true
    · simp [h]
    · exfalso
      apply h
      rw [if_neg h] at hqid
      rw [hqid, hpid]
      exact beq_self_eq_true pid
  rcases hsub with hsid | ⟨sid, sub, hsid, hsubf⟩
  · refine ⟨_, accept_success_no_stripe db pid did rel prof dom hrel hprof
      hdom hsid, rfl, ?_, hall⟩
    simp [hpid]
  · refine ⟨_, accept_success_stripe db pid did rel prof dom sid sub hrel
      hprof hdom hsid hsubf, rfl, ?_, hall⟩
    simp [hpid]

/-- Witness for C10 at the concrete store `sampleDb`. -/
theorem accept_activates_professional_globally_witness :
    ∃ out, accept (.ok true) 7 "d1" sampleDb = .ok out ∧ out.status = 200 ∧
      out.effects.take 2 =
        [.savedProfessional 7 true, .savedRelation rel0.relId false] ∧
      (∀ p ∈ out.db.professionals, p.id = 7 → p.active = true) :=
  accept_activates_professional_globally_before_relation_save sampleDb 7 "d1"
    rel0 prof0 dom0 (by decide) (by decide) (by decide)
    (Or.inr ⟨"sub1", sub0, rfl, by decide⟩)

/-- An insurance denial (`Denial` in `fighthealthinsurance/models.py`),
reduced to the fields the REST handlers under verification read.  People are
referenced by their numeric primary keys. -/
structure Denial where
  denialId : Nat
  uuid : String
  patient_user : Option Nat
  primary_professional : Option Nat
  creating_professional : Option Nat
  professional_to_finish : Bool
deriving DecidableEq, Repr

/-- An appeal (`Appeal` in `fighthealthinsurance/models.py`), reduced to the
fields the REST handlers under verification read and write. -/
structure Appeal where
  id : Nat
  uuid : String
  for_denial : Denial
  patient_user : Option Nat
  primary_professional : Option Nat
  creating_professional : Option Nat
  pending : Bool
  pending_patient : Bool
  pending_professional : Bool
  sent : Bool
  success : Bool
  patient_visible : Bool
  fax_number : Option String
  appeal_text : Option String
  response_text : Option String
  response_date : Option Nat
  mod_date : Nat
deriving DecidableEq, Repr

/-- Result of the send-fax handler: HTTP status, the appeal as saved, and
whether a fax was staged and dispatched. -/
structure SendFaxOutcome where
  status : Nat
  appeal : Appeal
  faxSent : Bool
deriving DecidableEq, Repr

/-- `AppealViewSet.send_fax` from `fighthealthinsurance/rest_views.py`, for a
visible appeal already resolved by `get_object_or_404`.  `callerPatient` is
the caller's `PatientUser` primary key when one exists (the handler's
try/except leaves it `None` otherwise); `faxNumberField` is the submitted fax
number.  The patient branch is compared with Python `==`, under which
`None == None` is true. -/
def send_fax (callerPatient : Option Nat) (faxNumberField : Option String)
    (appeal : Appeal) : SendFaxOutcome :=
  let appeal := if faxNumberField.isSome
    then { appeal with fax_number := faxNumberField } else appeal
  if appeal.patient_user == callerPatient
      && appeal.for_denial.professional_to_finish then
    let appeal := { appeal with
      pending_patient := false, pending_professional := true, pending := true }
    ⟨200, appeal, false⟩
  else
    let appeal := { appeal with
      pending_patient := false, pending_professional := false,
      pending := false }
    ⟨204, appeal, true⟩

/-- C3 (amended): the branch taken by send-fax compares the caller's optional
patient record with the appeal's optional patient user under Python `==`
(two absent values compare equal); when they are equal and the denial is
marked professional-to-finish, the appeal is saved pending-professional and
no fax goes out; in every other case all three pending flags are cleared and
the fax is dispatched.  The branch is decided before any send. -/
theorem send_fax_patient_handoff_branch (callerPatient : Option Nat)
    (faxNumberField : Option String) (appeal : Appeal) :
    (appeal.patient_user = callerPatient →
      appeal.for_denial.professional_to_finish = true →
      (send_fax callerPatient faxNumberField appeal).appeal.pending_professional
        = true ∧
      (send_fax callerPatient faxNumberField appeal).appeal.pending_patient
        = false ∧
      (send_fax callerPatient faxNumberField appeal).appeal.pending = true ∧
      (send_fax callerPatient faxNumberField appeal).faxSent = false ∧
      (send_fax callerPatient faxNumberField appeal).status = 200) ∧
    (appeal.patient_user ≠ callerPatient ∨
        appeal.for_denial.professional_to_finish = false →
      (send_fax callerPatient faxNumberField appeal).appeal.pending = false ∧
      (send_fax callerPatient faxNumberField appeal).appeal.pending_patient
        = false ∧
      (send_fax callerPatient faxNumberField appeal).appeal.pending_professional
        = false ∧
      (send_fax callerPatient faxNumberField appeal).faxSent = true) := by
  constructor
  · intro heq hptf
    cases faxNumberField <;> simp [send_fax, heq, hptf]
  · intro hne
    rcases hne with h | h
    · cases faxNumberField <;> simp [send_fax, h]
    · cases faxNumberField <;> simp [send_fax, h]

/-- A concrete appeal whose denial requires the professional to finish and
which carries no patient user. -/
def appealNoPatient : Appeal :=
  { id := 11, uuid := "u-11",
    for_denial :=
      { denialId := 5, uuid := "d-5", patient_user := none,
        primary_professional := some 7, creating_professional := some 7,
        professional_to_finish := true },
    patient_user := none, primary_professional := some 7,
    creating_professional := some 7,
    pending := true, pending_patient := true, pending_professional := false,
    sent := false, success := false, patient_visible := false,
    fax_number := none, appeal_text := some "text", response_text := none,
    response_date := none, mod_date := 0 }

/-- C3 counterexample: a caller with no patient record (so not the patient on
the appeal) sending a fax for an appeal that also has no patient user and
whose denial is professional-to-finish: the claim requires the pending flags
to be cleared and the fax dispatched, but the handler takes the
pending-professional branch and sends nothing. -/
theorem send_fax_none_patient_counterexample :
    (∀ p : Nat, ¬((none : Option Nat) = some p)) ∧
    appealNoPatient.patient_user = none ∧
    appealNoPatient.for_denial.professional_to_finish = true ∧
    (send_fax none none appealNoPatient).faxSent = false ∧
    (send_fax none none appealNoPatient).appeal.pending = true ∧
    (send_fax none none appealNoPatient).appeal.pending_professional = true :=
  ⟨fun _ h => Option.noConfusion h, rfl, rfl, rfl, rfl, rfl⟩

/-- A concrete appeal owned by patient 3, professional-to-finish set. -/
def appealOfPatient : Appeal :=
  { appealNoPatient with id := 12, uuid := "u-12", patient_user := some 3 }

/-- Witness for C3 at concrete inputs: patient 3 calling on their own appeal
is handed off to the professional; a different caller gets the fax sent. -/
theorem send_fax_patient_handoff_branch_witness :
    ((send_fax (some 3) none appealOfPatient).faxSent = false ∧
      (send_fax (some 3) none appealOfPatient).appeal.pending = true) ∧
    ((send_fax (some 4) none appealOfPatient).faxSent = true ∧
      (send_fax (some 4) none appealOfPatient).appeal.pending = false) :=
  ⟨(by
      have h := (send_fax_patient_handoff_branch (some 3) none
        appealOfPatient).1 rfl rfl
      exact ⟨h.2.2.2.1, h.2.2.1⟩),
    (by
      have h := (send_fax_patient_handoff_branch (some 4) none
        appealOfPatient).2 (Or.inl (by decide))
      exact ⟨h.2.2.2, h.1⟩)⟩

/-- A Django auth user as read by the token handlers. -/
structure AuthUser where
  id : Nat
  is_active : Bool
  password : String
deriving DecidableEq, Repr

/-- A `VerificationToken` / `ResetToken` row: owner, opaque token, expiry. -/
structure TimedToken where
  userId : Nat
  token : String
  expires_at : Nat
deriving DecidableEq, Repr

/-- The store consulted by the verification and password-reset handlers.
`extraProps` models `ExtraUserProperties` as (user id, email_verified). -/
structure TokenDb where
  users : List AuthUser
  extraProps : List (Nat × Bool)
  verificationTokens : List TimedToken
  resetTokens : List TimedToken
deriving DecidableEq, Repr

/-- Result of a token handler: HTTP status, status message, updated store. -/
structure TokenOutcome where
  status : Nat
  message : String
  db : TokenDb
deriving DecidableEq, Repr

/-- `ExtraUserProperties.objects.get` / `.create` followed by
`email_verified = True` and save. -/
def setEmailVerified (uid : Nat) (props : List (Nat × Bool)) :
    List (Nat × Bool) :=
  match props.find? (fun e => e.fst == uid) with
  | some _ => props.map (fun e => if e.fst == uid then (e.fst, true) else e)
  | none => props ++ [(uid, true)]

/-- `VerifyEmailViewSet.verify` from `fhi_users/auth/rest_auth_views.py`.
An expired token is reported (HTTP 500, "Activation link has expired") and
the handler returns without deleting it and without activating the user.  On
success the user is activated, `email_verified` is set and the token is
deleted.  The trailing `PatientUser`/`ProfessionalUser`
`update(is_active=True)` calls in the source name a non-existent column and
their exception is swallowed by a bare except, so they change nothing and
are modelled as no-ops. -/
def verify (now : Nat) (uid : Nat) (tok : String) (db : TokenDb) :
    TokenOutcome :=
  match db.users.find? (fun u => u.id == uid) with
  | none => ⟨400, "Invalid activation link [user not found]", db⟩
  | some user =>
    match db.verificationTokens.find?
        (fun t => t.userId == user.id && t.token == tok) with
    | none => ⟨400, "Invalid activation link", db⟩
    | some verification_token =>
      if verification_token.expires_at < now then
        ⟨500, "Activation link has expired", db⟩
      else
        let user := { user with is_active := true }
        let db := { db with
          users := db.users.map
            (fun (u : AuthUser) => if u.id == user.id then user else u) }
        let db := { db with extraProps := setEmailVerified user.id db.extraProps }
        let db := { db with verificationTokens :=
          db.verificationTokens.erase verification_token }
        ⟨200, "success", db⟩

/-- `PasswordResetViewSet.finish_reset` from
`fhi_users/auth/rest_auth_views.py`.  An expired token is deleted and
reported ("Reset token has expired"); a missing token is reported as
invalid; otherwise the password is updated and the token deleted. -/
def finish_reset (now : Nat) (tok : String) (new_password : String)
    (db : TokenDb) : TokenOutcome :=
  match db.resetTokens.find? (fun t => t.token == tok) with
  | none => ⟨400, "Invalid reset token", db⟩
  | some reset_token =>
    if reset_token.expires_at < now then
      ⟨400, "Reset token has expired",
        { db with resetTokens := db.resetTokens.erase reset_token }⟩
    else
      let db := { db with
        users := db.users.map
          (fun (u : AuthUser) => if u.id == reset_token.userId
            then { u with password := new_password } else u) }
      ⟨200, "password_reset_complete",
        { db with resetTokens := db.resetTokens.erase reset_token }⟩

/-- C4 (amended): an expired reset token is deleted opportunistically and
reported with an Expired-class message distinct from the invalid-token
message, without touching any password; an expired verification token is
reported with an Expired-class message distinct from the invalid-link
message and the activation is not applied, but the token is left stored; a
token that does not exist yields the Invalid-class answer with no change. -/
theorem expired_token_distinct_error_and_effects
    (now : Nat) (tok : String) (pw : String) (db : TokenDb) :
    (∀ rt, db.resetTokens.find? (fun t => t.token == tok) = some rt →
      rt.expires_at < now →
      finish_reset now tok pw db =
        ⟨400, "Reset token has expired",
          { db with resetTokens := db.resetTokens.erase rt }⟩ ∧
      (db.resetTokens.count rt = 1 →
        rt ∉ (finish_reset now tok pw db).db.resetTokens) ∧
      (finish_reset now tok pw db).db.users = db.users) ∧
    (db.resetTokens.find? (fun t => t.token == tok) = none →
      finish_reset now tok pw db = ⟨400, "Invalid reset token", db⟩) ∧
    ("Reset token has expired" ≠ "Invalid reset token") ∧
    (∀ uid u vt, db.users.find? (fun x => x.id == uid) = some u →
      db.verificationTokens.find?
        (fun t => t.userId == u.id && t.token == tok) = some vt →
      vt.expires_at < now →
      verify now uid tok db = ⟨500, "Activation link has expired", db⟩) ∧
    ("Activation link has expired" ≠ "Invalid activation link") := by
  refine ⟨?_, ?_, by decide, ?_, by decide⟩
  · intro rt hfind hexp
    have heq : finish_reset now tok pw db =
        ⟨400, "Reset token has expired",
          { db with resetTokens := db.resetTokens.erase rt }⟩ := by
      simp only [finish_reset, hfind, if_pos hexp]
    refine ⟨heq, ?_, by rw [heq]⟩
    intro hcount
    rw [heq]
    exact List.count_eq_zero.mp (by simp [List.count_erase_self, hcount])
  · intro h
    simp only [finish_reset, h]
  · intro uid u vt hu hvt hexp
    simp only [verify, hu, hvt, if_pos hexp]

/-- A user holding a verification token that expired at time 10. -/
def tokenUser : AuthUser := ⟨1, false, "old"⟩

def expiredVTok : TimedToken := ⟨1, "tkn", 10⟩

def tokenDb0 : TokenDb := ⟨[tokenUser], [], [expiredVTok], []⟩

/-- C4 counterexample: presenting the expired verification token at time 100
reports the Expired-class error but leaves the token stored — the claimed
opportunistic deletion does not happen for verification tokens. -/
theorem verify_expired_token_not_deleted :
    expiredVTok.expires_at < 100 ∧
    verify 100 1 "tkn" tokenDb0 =
      ⟨500, "Activation link has expired", tokenDb0⟩ ∧
    (verify 100 1 "tkn" tokenDb0).db.verificationTokens = [expiredVTok] :=
  ⟨by decide, rfl, rfl⟩

/-- A user holding a reset token that expired at time 10. -/
def resetUser : AuthUser := ⟨2, true, "old"⟩

def expiredRTok : TimedToken := ⟨2, "r", 10⟩

def tokenDb1 : TokenDb := ⟨[resetUser], [], [], [expiredRTok]⟩

/-- Witness for C4 at concrete stores: the expired reset token is deleted
with no password change, and the expired verification token is reported
without applying the activation. -/
theorem expired_token_distinct_error_and_effects_witness :
    (finish_reset 100 "r" "new" tokenDb1 =
      ⟨400, "Reset token has expired",
        { tokenDb1 with resetTokens := tokenDb1.resetTokens.erase expiredRTok }⟩ ∧
     expiredRTok ∉ (finish_reset 100 "r" "new" tokenDb1).db.resetTokens ∧
     (finish_reset 100 "r" "new" tokenDb1).db.users = tokenDb1.users) ∧
    verify 100 1 "tkn" tokenDb0 =
      ⟨500, "Activation link has expired", tokenDb0⟩ := by
  have h := (expired_token_distinct_error_and_effects 100 "r" "new"
    tokenDb1).1 expiredRTok rfl (by decide)
  have h2 := (expired_token_distinct_error_and_effects 100 "tkn" "new"
    tokenDb0).2.2.2.1 1 tokenUser expiredVTok rfl rfl (by decide)
  exact ⟨⟨h.1, h.2.1 (by decide), h.2.2⟩, h2⟩

/-- An appeal attachment (`AppealAttachment` in
`fighthealthinsurance/models.py`), reduced to the fields the retrieve
handler reads. -/
structure AppealAttachment where
  id : Nat
  appealId : Nat
  filename : String
  mime_type : String
deriving DecidableEq, Repr

/-- Responses an object-retrieval endpoint could give: the serialized
record, 404 (`Http404` raised by `get_object_or_404`), or a 403. -/
inductive HttpResult (α : Type)
  | ok (body : α)
  | notFound
  | forbidden
deriving DecidableEq, Repr

/-- `get_object_or_404(Model.filter_to_allowed_*(user), pk=pk)`: the record
set is first restricted to the caller's visible set (the `filter_to_allowed`
queryset, abstracted as the predicate `visible`), then looked up by primary
key; a miss raises `Http404`. -/
def retrieve_by_pk {α : Type} (visible : α → Bool) (pkOf : α → Nat)
    (records : List α) (pk : Nat) : HttpResult α :=
  match (records.filter visible).find? (fun a => pkOf a == pk) with
  | some a => .ok a
  | none => .notFound

/-- `AppealViewSet.retrieve` from `fighthealthinsurance/rest_views.py`. -/
def appealRetrieve (visible : Appeal → Bool) (records : List Appeal)
    (pk : Nat) : HttpResult Appeal :=
  retrieve_by_pk visible Appeal.id records pk

/-- `DenialViewSet.retrieve` from `fighthealthinsurance/rest_views.py`. -/
def denialRetrieve (visible : Denial → Bool) (records : List Denial)
    (pk : Nat) : HttpResult Denial :=
  retrieve_by_pk visible Denial.denialId records pk

/-- `AppealAttachmentViewSet.retrieve` from
`fighthealthinsurance/rest_views.py`. -/
def attachmentRetrieve (visible : AppealAttachment → Bool)
    (records : List AppealAttachment) (pk : Nat) :
    HttpResult AppealAttachment :=
  retrieve_by_pk visible AppealAttachment.id records pk

lemma retrieve_by_pk_ne_forbidden {α : Type} (visible : α → Bool)
    (pkOf : α → Nat) (records : List α) (pk : Nat) :
    retrieve_by_pk visible pkOf records pk ≠ .forbidden := by
  unfold retrieve_by_pk
  cases h : (records.filter visible).find? (fun a => pkOf a == pk) <;> simp

lemma retrieve_by_pk_invisible {α : Type} (visible : α → Bool)
    (pkOf : α → Nat) (records : List α) (pk : Nat)
    (h : ∀ a ∈ records, pkOf a = pk → visible a = false) :
    retrieve_by_pk visible pkOf records pk = .notFound ∧
    retrieve_by_pk visible pkOf
      (records.filter (fun a => !(pkOf a == pk))) pk = .notFound := by
  constructor
  · unfold retrieve_by_pk
    rw [List.find?_eq_none.mpr]
    intro x hx
    obtain ⟨hmem, hvis⟩ := List.mem_filter.mp hx
    intro hpk
    rw [h x hmem (eq_of_beq hpk)] at hvis
    exact Bool.noConfusion hvis
  · unfold retrieve_by_pk
    rw [List.find?_eq_none.mpr]
    intro x hx
    obtain ⟨hmem, hvis⟩ := List.mem_filter.mp hx
    obtain ⟨_, hne⟩ := List.mem_filter.mp hmem
    intro hpk
    rw [hpk] at hne
    exact Bool.noConfusion hne

/-- C6: for Appeal, Denial and AppealAttachment retrieval, a Forbidden-class
result is never produced, and when every record carrying the requested
primary key is outside the caller's visible set, the response is 404 —
identical to the response over a store from which those records are absent
altogether. -/
theorem retrieve_hides_existence_as_404
    (visA : Appeal → Bool) (appeals : List Appeal) (pkA : Nat)
    (visD : Denial → Bool) (denials : List Denial) (pkD : Nat)
    (visT : AppealAttachment → Bool) (attachments : List AppealAttachment)
    (pkT : Nat) :
    (appealRetrieve visA appeals pkA ≠ .forbidden) ∧
    (denialRetrieve visD denials pkD ≠ .forbidden) ∧
    (attachmentRetrieve visT attachments pkT ≠ .forbidden) ∧
    ((∀ a ∈ appeals, a.id = pkA → visA a = false) →
      appealRetrieve visA appeals pkA = .notFound ∧
      appealRetrieve visA (appeals.filter (fun a => !(a.id == pkA))) pkA =
        .notFound) ∧
    ((∀ d ∈ denials, d.denialId = pkD → visD d = false) →
      denialRetrieve visD denials pkD = .notFound ∧
      denialRetrieve visD (denials.filter (fun d => !(d.denialId == pkD)))
        pkD = .notFound) ∧
    ((∀ t ∈ attachments, t.id = pkT → visT t = false) →
      attachmentRetrieve visT attachments pkT = .notFound ∧
      attachmentRetrieve visT
        (attachments.filter (fun t => !(t.id == pkT))) pkT = .notFound) := by
  refine ⟨retrieve_by_pk_ne_forbidden _ _ _ _,
    retrieve_by_pk_ne_forbidden _ _ _ _,
    retrieve_by_pk_ne_forbidden _ _ _ _, ?_, ?_, ?_⟩
  · exact retrieve_by_pk_invisible visA Appeal.id appeals pkA
  · exact retrieve_by_pk_invisible visD Denial.denialId denials pkD
  · exact retrieve_by_pk_invisible visT AppealAttachment.id attachments pkT

/-- A concrete attachment for the C6 witness. -/
def attachment0 : AppealAttachment := ⟨21, 11, "scan.pdf", "application/pdf"⟩

/-- Witness for C6: an existing appeal, denial and attachment, each invisible
to the caller, all answered with 404, exactly as when absent. -/
theorem retrieve_hides_existence_as_404_witness :
    (appealRetrieve (fun _ => false) [appealNoPatient] 11 = .notFound ∧
      appealRetrieve (fun _ => false)
        ([appealNoPatient].filter (fun a => !(a.id == 11))) 11 = .notFound) ∧
    (denialRetrieve (fun _ => false) [appealNoPatient.for_denial] 5 =
        .notFound ∧
      denialRetrieve (fun _ => false)
        ([appealNoPatient.for_denial].filter (fun d => !(d.denialId == 5)))
        5 = .notFound) ∧
    (attachmentRetrieve (fun _ => false) [attachment0] 21 = .notFound ∧
      attachmentRetrieve (fun _ => false)
        ([attachment0].filter (fun t => !(t.id == 21))) 21 = .notFound) := by
  have h := retrieve_hides_existence_as_404
    (fun _ => false) [appealNoPatient] 11
    (fun _ => false) [appealNoPatient.for_denial] 5
    (fun _ => false) [attachment0] 21
  exact ⟨h.2.2.2.1 (by decide), h.2.2.2.2.1 (by decide),
    h.2.2.2.2.2 (by decide)⟩

/-- `current_appeals.filter(success=True).count()`. -/
def successCount (l : List Appeal) : Nat := (l.filter (fun a => a.success)).length

/-- `current_appeals.exclude(response_date=None).count()`. -/
def withResponseCount (l : List Appeal) : Nat :=
  (l.filter (fun a => a.response_date.isSome)).length

/-- `PatientUser.objects.filter(appeal__in=...).distinct().count()`. -/
def patientCount (l : List Appeal) : Nat :=
  (l.filterMap (fun a => a.patient_user)).dedup.length

/-- The counters assembled by `AppealViewSet.stats`. -/
structure Statistics where
  current_total_appeals : Nat
  current_pending_appeals : Nat
  current_sent_appeals : Nat
  current_success_rate : ℚ
  current_total_patients : Nat
  previous_total_appeals : Nat
  previous_pending_appeals : Nat
  previous_sent_appeals : Nat
  previous_success_rate : ℚ
  previous_total_patients : Nat
deriving DecidableEq, Repr

/-- `AppealViewSet.stats` from `fighthealthinsurance/rest_views.py`.  The two
`creation_date__range` window filters computed from the `delta` parameter
are abstracted as the predicates `currentWindow` and `previousWindow`;
`visibleAppeals` is the caller's `filter_to_allowed_appeals` queryset.
Division is exact (Python float division modelled in ℚ). -/
def stats (currentWindow previousWindow : Appeal → Bool)
    (visibleAppeals : List Appeal) : Statistics :=
  let current_appeals := visibleAppeals.filter currentWindow
  let previous_appeals := visibleAppeals.filter previousWindow
  { current_total_appeals := current_appeals.length
    current_pending_appeals := (current_appeals.filter (fun a => a.pending)).length
    current_sent_appeals := (current_appeals.filter (fun a => a.sent)).length
    current_success_rate :=
      if withResponseCount current_appeals > 0 then
        (successCount current_appeals : ℚ) /
          (withResponseCount current_appeals : ℚ) * 100
      else 0
    current_total_patients := patientCount current_appeals
    previous_total_appeals := previous_appeals.length
    previous_pending_appeals := (previous_appeals.filter (fun a => a.pending)).length
    previous_sent_appeals := (previous_appeals.filter (fun a => a.sent)).length
    previous_success_rate :=
      if withResponseCount previous_appeals > 0 then
        (successCount previous_appeals : ℚ) /
          (withResponseCount previous_appeals : ℚ) * 100
      else 0
    previous_total_patients := patientCount previous_appeals }

/-- The counters assembled by `AppealViewSet.absolute_stats`. -/
structure AbsoluteStatistics where
  total_appeals : Nat
  pending_appeals : Nat
  sent_appeals : Nat
  success_rate : ℚ
  total_patients : Nat
deriving DecidableEq, Repr

/-- `AppealViewSet.absolute_stats` from `fighthealthinsurance/rest_views.py`.
`domainPatientCount` is the patient-membership count of the session domain
when one resolves (`PatientUser.objects.filter(patientdomainrelation__domain
=user_domain)`), `none` when it does not. -/
def absolute_stats (visibleAppeals : List Appeal)
    (domainPatientCount : Option Nat) : AbsoluteStatistics :=
  { total_appeals := visibleAppeals.length
    pending_appeals := (visibleAppeals.filter (fun a => a.pending)).length
    sent_appeals := (visibleAppeals.filter (fun a => a.sent)).length
    success_rate :=
      if withResponseCount visibleAppeals > 0 then
        (successCount visibleAppeals : ℚ) /
          (withResponseCount visibleAppeals : ℚ) * 100
      else 0
    total_patients :=
      match domainPatientCount with
      | some n => n
      | none => patientCount visibleAppeals }

/-- The success-rate formula as amended: the percentage
`100 * successful / with_response`, guarded to 0 on a zero denominator. -/
def guardedPercentRate (s w : Nat) : ℚ :=
  if w = 0 then 0 else 100 * (s : ℚ) / (w : ℚ)

lemma rate_eq_guardedPercentRate (s w : Nat) :
    (if w > 0 then (s : ℚ) / (w : ℚ) * 100 else 0) = guardedPercentRate s w := by
  unfold guardedPercentRate
  rcases Nat.eq_zero_or_pos w with h | h
  · simp [h]
  · rw [if_pos h, if_neg (Nat.pos_iff_ne_zero.mp h)]
    ring

/-- C7 (amended): in both the windowed and the absolute statistics the
success rate equals `100 * successful / with_response` — the ratio of
successful appeals to appeals with any response, expressed as a percentage —
and it is 0 whenever the denominator is zero, with no division performed. -/
theorem success_rate_guarded_percentage
    (currentWindow previousWindow : Appeal → Bool)
    (visibleAppeals : List Appeal) (domainPatientCount : Option Nat) :
    ((stats currentWindow previousWindow visibleAppeals).current_success_rate
      = guardedPercentRate (successCount (visibleAppeals.filter currentWindow))
          (withResponseCount (visibleAppeals.filter currentWindow))) ∧
    ((stats currentWindow previousWindow visibleAppeals).previous_success_rate
      = guardedPercentRate (successCount (visibleAppeals.filter previousWindow))
          (withResponseCount (visibleAppeals.filter previousWindow))) ∧
    ((absolute_stats visibleAppeals domainPatientCount).success_rate
      = guardedPercentRate (successCount visibleAppeals)
          (withResponseCount visibleAppeals)) ∧
    (withResponseCount (visibleAppeals.filter currentWindow) = 0 →
      (stats currentWindow previousWindow visibleAppeals).current_success_rate
        = 0) ∧
    (withResponseCount visibleAppeals = 0 →
      (absolute_stats visibleAppeals domainPatientCount).success_rate = 0) := by
  refine ⟨rate_eq_guardedPercentRate _ _, rate_eq_guardedPercentRate _ _,
    rate_eq_guardedPercentRate _ _, ?_, ?_⟩
  · intro h
    simp [stats, h]
  · intro h
    simp [absolute_stats, h]

/-- An appeal with a recorded response and success. -/
def appealWon : Appeal :=
  { appealNoPatient with
    id := 13, uuid := "u-13", success := true,
    sent := true, pending := false, response_date := some 50 }

/-- An appeal with a recorded response and no success. -/
def appealLost : Appeal :=
  { appealNoPatient with
    id := 14, uuid := "u-14", success := false,
    sent := true, pending := false, response_date := some 60 }

/-- C7 counterexample: with one successful appeal out of two with responses
the code reports a rate of 50 — the ratio times 100 — not the plain ratio
1/2 the claim states; the absolute variant does the same. -/
theorem success_rate_is_percentage_not_ratio :
    successCount [appealWon, appealLost] = 1 ∧
    withResponseCount [appealWon, appealLost] = 2 ∧
    (stats (fun _ => true) (fun _ => true)
      [appealWon, appealLost]).current_success_rate = 50 ∧
    (absolute_stats [appealWon, appealLost] none).success_rate = 50 ∧
    ((successCount [appealWon, appealLost] : ℚ) /
      (withResponseCount [appealWon, appealLost] : ℚ) ≠ 50) := by
  have hsf : successCount ([appealWon, appealLost].filter (fun _ => true)) = 1 :=
    by decide
  have hwf : withResponseCount ([appealWon, appealLost].filter (fun _ => true)) = 2 :=
    by decide
  have hs : successCount [appealWon, appealLost] = 1 := by decide
  have hw : withResponseCount [appealWon, appealLost] = 2 := by decide
  refine ⟨hs, hw, ?_, ?_, ?_⟩
  · simp only [stats, hsf, hwf]
    norm_num
  · simp only [absolute_stats, hs, hw]
    norm_num
  · rw [hs, hw]
    norm_num

/-- Witness for C7: on an empty visible set both variants report rate 0. -/
theorem success_rate_guarded_percentage_witness :
    (stats (fun _ => true) (fun _ => true) []).current_success_rate = 0 ∧
    (absolute_stats [] none).success_rate = 0 := by
  have h := success_rate_guarded_percentage (fun _ => true) (fun _ => true)
    [] none
  exact ⟨h.2.2.2.1 rfl, h.2.2.2.2 rfl⟩

/-- Character-list equality test for a leading segment, spelled out to model
Python substring containment. -/
def leadsList : List Char → List Char → Bool
  | [], _ => true
  | _ :: _, [] => false
  | a :: as, b :: bs => a == b && leadsList as bs

/-- Substring occurrence on character lists. -/
def occursIn : List Char → List Char → Bool
  | needle, [] => needle.isEmpty
  | needle, c :: rest => leadsList needle (c :: rest) || occursIn needle rest

/-- Django `field__icontains=q`: case-insensitive substring containment
(both sides lowercased character by character); a NULL column never
matches. -/
def icontains (hay : Option String) (needle : String) : Bool :=
  match hay with
  | none => false
  | some h =>
    occursIn (needle.data.map Char.toLower) (h.data.map Char.toLower)

/-- The search filter of `AppealViewSet.search`:
`Q(uuid__icontains=q) | Q(appeal_text__icontains=q) |
Q(response_text__icontains=q)`. -/
def appealMatches (q : String) (a : Appeal) : Bool :=
  icontains (some a.uuid) q || icontains a.appeal_text q ||
    icontains a.response_text q

/-- One row of the search result projection built by `AppealViewSet.search`. -/
structure SearchRow where
  id : Nat
  uuid : String
  appeal_text : String
  pending : Bool
  sent : Bool
  mod_date : Nat
  has_response : Bool
deriving DecidableEq, Repr

/-- The summary projection of one appeal (`search_results.append({...})`). -/
def toSearchRow (a : Appeal) : SearchRow :=
  { id := a.id, uuid := a.uuid,
    appeal_text := match a.appeal_text with | some t => t.take 200 | none => ""
    pending := a.pending, sent := a.sent, mod_date := a.mod_date,
    has_response := a.response_date.isSome }

/-- The unsorted result rows for a query over the visible appeals. -/
def searchRows (visible : List Appeal) (q : String) : List SearchRow :=
  (visible.filter (appealMatches q)).map toSearchRow

/-- `search_results.sort(key=lambda x: x["mod_date"], reverse=True)`:
stable descending comparison on the modification date. -/
def searchLe (x y : SearchRow) : Bool := decide (y.mod_date ≤ x.mod_date)

/-- The body of the search response. -/
structure SearchOk where
  count : Nat
  next : Bool
  previous : Bool
  results : List SearchRow
deriving DecidableEq, Repr

/-- The pagination tail of `AppealViewSet.search`: sort descending by
modification date, then slice `[(page-1)*page_size : page*page_size]` with
`page_size = int(GET.get("page_size", 10))` and `page = int(GET.get("page",
1))` (1-indexed; behaviour is modelled for `page ≥ 1`). -/
def searchResults (visible : List Appeal) (q : String)
    (page_size_param page_param : Option Nat) : SearchOk :=
  let search_results := (searchRows visible q).mergeSort searchLe
  let page_size := page_size_param.getD 10
  let page := page_param.getD 1
  let start_idx := (page - 1) * page_size
  { count := search_results.length
    next := decide (page < search_results.length / page_size + 1)
    previous := decide (1 < page)
    results := (search_results.drop start_idx).take page_size }

/-- `AppealViewSet.search` from `fighthealthinsurance/rest_views.py`: an
empty query is answered 400 before any work. -/
def search (visible : List Appeal) (q : String)
    (page_size_param page_param : Option Nat) : Except String SearchOk :=
  if q = "" then .error "Please provide a search query parameter"
  else .ok (searchResults visible q page_size_param page_param)

lemma searchLe_trans (a b c : SearchRow) : searchLe a b = true →
    searchLe b c = true → searchLe a c = true := by
  simp only [searchLe, decide_eq_true_eq]
  omega

lemma searchLe_total (a b : SearchRow) :
    (searchLe a b || searchLe b a) = true := by
  simp only [searchLe, Bool.or_eq_true, decide_eq_true_eq]
  exact Nat.le_total b.mod_date a.mod_date

/-- C8: search results are sorted by most-recent-modification descending and
paginated by the 1-indexed (page, page_size) pair with default page size 10;
a non-empty query is answered with this payload; and over exactly 15
matching rows, page 2 with page size 10 holds exactly 5 items with
`previous = true` and `next = false`. -/
theorem search_sorted_and_paginated (visible : List Appeal) (q : String)
    (page_size_param page_param : Option Nat) :
    (searchResults visible q none page_param =
      searchResults visible q (some 10) page_param) ∧
    (q ≠ "" → search visible q page_size_param page_param =
      .ok (searchResults visible q page_size_param page_param)) ∧
    ((searchResults visible q page_size_param page_param).results.Pairwise
      (fun x y => y.mod_date ≤ x.mod_date)) ∧
    ((searchResults visible q page_size_param page_param).results =
      (((searchRows visible q).mergeSort searchLe).drop
        ((page_param.getD 1 - 1) * page_size_param.getD 10)).take
        (page_size_param.getD 10)) ∧
    ((searchRows visible q).length = 15 →
      (searchResults visible q (some 10) (some 2)).results.length = 5 ∧
      (searchResults visible q (some 10) (some 2)).previous = true ∧
      (searchResults visible q (some 10) (some 2)).next = false) := by
  refine ⟨rfl, ?_, ?_, rfl, ?_⟩
  · intro h
    simp [search, h]
  · have hsort := @List.sorted_mergeSort SearchRow searchLe searchLe_trans
      searchLe_total (searchRows visible q)
    have hsub : (searchResults visible q page_size_param
        page_param).results.Sublist
        ((searchRows visible q).mergeSort searchLe) :=
      (List.take_sublist _ _).trans (List.drop_sublist _ _)
    exact (hsort.sublist hsub).imp
      (fun h => by simpa [searchLe] using h)
  · intro h15
    refine ⟨?_, rfl, ?_⟩
    · simp [searchResults, List.length_take, List.length_drop,
        List.length_mergeSort, h15]
    · simp [searchResults, List.length_mergeSort, h15]

/-- A visible appeal whose identifier matches the query "u". -/
def searchAppeal (n : Nat) : Appeal :=
  { appealNoPatient with id := n, uuid := "u", mod_date := n }

/-- Fifteen matching appeals for the C8 witness. -/
def searchAppeals15 : List Appeal := (List.range 15).map searchAppeal

/-- Witness for C8: page 2 with page size 10 over the 15 matching appeals. -/
theorem search_sorted_and_paginated_witness :
    search searchAppeals15 "u" (some 10) (some 2) =
      .ok (searchResults searchAppeals15 "u" (some 10) (some 2)) ∧
    (searchResults searchAppeals15 "u" (some 10) (some 2)).results.length = 5 ∧
    (searchResults searchAppeals15 "u" (some 10) (some 2)).previous = true ∧
    (searchResults searchAppeals15 "u" (some 10) (some 2)).next = false := by
  have h := search_sorted_and_paginated searchAppeals15 "u" (some 10) (some 2)
  have h5 := h.2.2.2.2 (by decide)
  exact ⟨h.2.1 (by decide), h5.1, h5.2.1, h5.2.2⟩

/-- The appeal row created by `DenialViewSet.perform_create` when the denial
has no appeal yet: `Appeal.objects.create(for_denial=denial,
patient_user=..., primary_professional=..., creating_professional=...,
pending=True)`; every other column keeps its model default. -/
def mkPendingAppeal (denial : Denial) (newId : Nat) : Appeal :=
  { id := newId, uuid := "", for_denial := denial,
    patient_user := denial.patient_user,
    primary_professional := denial.primary_professional,
    creating_professional := denial.creating_professional,
    pending := true, pending_patient := false, pending_professional := false,
    sent := false, success := false, patient_visible := false,
    fax_number := none, appeal_text := none, response_text := none,
    response_date := none, mod_date := 0 }

/-- The appeal-creation tail of `DenialViewSet.perform_create` from
`fighthealthinsurance/rest_views.py`: `Appeal.objects.get(for_denial=denial)`
inside a bare try/except — the create runs whenever the lookup does not find
exactly one row. -/
def perform_create_appeal (denial : Denial) (appeals : List Appeal)
    (newId : Nat) : List Appeal :=
  match appeals.filter (fun a => a.for_denial.denialId == denial.denialId) with
  | [_] => appeals
  | _ => appeals ++ [mkPendingAppeal denial newId]

/-- C9: on a create/update-denial request, a denial with no existing appeal
gets a fresh appeal appended, created pending and carrying the denial's
patient, primary professional and creating professional, linked to the
denial; a denial whose appeal already exists gets no additional appeal. -/
theorem denial_auto_creates_pending_appeal (denial : Denial)
    (appeals : List Appeal) (newId : Nat) :
    (appeals.filter (fun a => a.for_denial.denialId == denial.denialId) = [] →
      perform_create_appeal denial appeals newId =
        appeals ++ [mkPendingAppeal denial newId] ∧
      (mkPendingAppeal denial newId).pending = true ∧
      (mkPendingAppeal denial newId).for_denial = denial ∧
      (mkPendingAppeal denial newId).patient_user = denial.patient_user ∧
      (mkPendingAppeal denial newId).primary_professional =
        denial.primary_professional ∧
      (mkPendingAppeal denial newId).creating_professional =
        denial.creating_professional) ∧
    (∀ a, appeals.filter (fun x => x.for_denial.denialId == denial.denialId)
        = [a] →
      perform_create_appeal denial appeals newId = appeals) := by
  constructor
  · intro h
    refine ⟨?_, rfl, rfl, rfl, rfl, rfl⟩
    simp only [perform_create_appeal, h]
  · intro a h
    simp only [perform_create_appeal, h]

/-- Witness for C9: creating a denial with no appeal appends the pending
appeal; running the handler again with the appeal in place appends
nothing. -/
theorem denial_auto_creates_pending_appeal_witness :
    (perform_create_appeal appealNoPatient.for_denial [] 100 =
      [mkPendingAppeal appealNoPatient.for_denial 100] ∧
     (mkPendingAppeal appealNoPatient.for_denial 100).pending = true) ∧
    perform_create_appeal appealNoPatient.for_denial
      [mkPendingAppeal appealNoPatient.for_denial 100] 101 =
      [mkPendingAppeal appealNoPatient.for_denial 100] := by
  have h1 := (denial_auto_creates_pending_appeal appealNoPatient.for_denial
    [] 100).1 rfl
  have h2 := (denial_auto_creates_pending_appeal appealNoPatient.for_denial
    [mkPendingAppeal appealNoPatient.for_denial 100] 101).2
    (mkPendingAppeal appealNoPatient.for_denial 100) (by decide)
  exact ⟨⟨h1.1, h1.2.1⟩, h2⟩
